import Mathlib

/-
Verification development for the UDP-to-HTTPS DNS proxy (src/src/main.c).

The embedding below translates the event handlers of main.c into pure Lean
functions.  Stateful behaviour (the shared curl resolve list `app.resolv`,
written by dns_poll_cb and read by dns_server_cb) is modelled by explicit
state passing over a trace of events.  The external modules that main.c
calls into (dns_server.c, dns_poller.c, https_client.c, json_to_dns.c) are
not part of the sources; where a claim depends on them they are modelled
from the specification, as marked in the doc comments.
-/

namespace HttpsDnsProxy

/-- Network address and port of a UDP peer (struct sockaddr_in, abstracted
to the pair of its address and port values). -/
structure SockAddrIn where
  addr : Nat
  port : Nat
deriving DecidableEq

/-- Heap-allocated context correlating one in-flight HTTPS fetch to the
query it answers (request_t, main.c lines 42-46). -/
structure Request where
  tx_id : Nat
  raddr : SockAddrIn
  dns_server : Nat
deriving DecidableEq

/-- An IPv4 address as four octets, as delivered to dns_poll_cb. -/
structure IPv4 where
  a : Nat
  b : Nat
  c : Nat
  d : Nat
deriving DecidableEq

/-- Dotted-quad rendering of an IPv4 address (ares_inet_ntop for AF_INET). -/
def ares_inet_ntop (x : IPv4) : List Char :=
  (Nat.repr x.a).data ++ '.' :: ((Nat.repr x.b).data ++ '.' :: ((Nat.repr x.c).data ++ '.' :: (Nat.repr x.d).data))

/-- Uppercase hexadecimal digit characters, indexed 0-15. -/
def hexUpper (n : Nat) : Char :=
  "0123456789ABCDEF".data.getD n '0'

/-- Characters libcurl leaves unescaped: alphanumerics and the RFC 3986
unreserved marks. -/
def curlUnreserved (c : Char) : Bool :=
  c.isAlphanum || c == '-' || c == '.' || c == '_' || c == '~'

/-- Percent-escaping of a single character as curl_escape does it: an
unreserved character is kept, anything else becomes a percent sign and two
uppercase hex digits of its byte value. -/
def escapeChar (c : Char) : List Char :=
  if curlUnreserved c then [c]
  else ['%', hexUpper (c.toNat / 16 % 16), hexUpper (c.toNat % 16)]

/-- Model of libcurl's curl_escape (external library): percent-escape every
character of the name that is not unreserved. -/
def curl_escape : List Char → List Char
  | [] => []
  | c :: cs => escapeChar c ++ curl_escape cs

/-- App state captured for dns_server_cb (app_state_t, main.c lines 35-40):
the current curl resolve list (none before the first successful poll) and
the pre-rendered extra request arguments. -/
structure AppState where
  resolv : Option (List Char)
  extra_request_args : List Char
deriving DecidableEq

/-- The observable effect of one https_client_fetch call (main.c line 108):
the URL, the resolve-list snapshot handed over, and the request context. -/
structure Fetch where
  url : List Char
  resolv : Option (List Char)
  req : Request
deriving DecidableEq

/-- The untruncated URL text that dns_server_cb formats (main.c lines
94-101): hardcoded scheme and host, percent-escaped name, decimal type,
the cd parameter when bit 4 of the flags is set, then the extra args. -/
def urlFull (app : AppState) (flags : Nat) (name : List Char) (ty : Nat) : List Char :=
  "https://dns.google.com/resolve?name=".data ++ (curl_escape name
    ++ ("&type=".data ++ ((Nat.repr ty).data
    ++ ((if flags &&& (1 <<< 4) ≠ 0 then "&cd=true".data else [])
    ++ app.extra_request_args))))

/-- dns_server_cb (main.c lines 86-109): builds the URL into a 1500-byte
buffer via snprintf with size 1499, hence at most 1498 characters survive;
allocates the request context capturing transaction id, source address and
server handle; always issues the fetch. -/
def dns_server_cb (app : AppState) (dns_server : Nat) (addr : SockAddrIn)
    (tx_id flags : Nat) (name : List Char) (ty : Nat) : Fetch :=
  { url := (urlFull app flags name ty).take 1498
    resolv := app.resolv
    req := { tx_id := tx_id, raddr := addr, dns_server := dns_server } }

/-- dns_poll_cb (main.c lines 111-120): the single entry of the replacement
curl resolve list, "dns.google.com:443:" followed by the dotted quad. -/
def dns_poll_cb (addr : IPv4) : List Char :=
  "dns.google.com:443:".data ++ ares_inet_ntop addr

/-- The C-string read out of the copied response buffer: the bytes up to
the first NUL, as characters (main.c lines 65-69). -/
def cstring (bytes : List Nat) : List Char :=
  (bytes.takeWhile (fun b => b ≠ 0)).map Char.ofNat

/-- Wire bytes of the DNS header the converter emits: transaction id
big-endian, then response flags and zeroed counts. -/
def dns_header_bytes (tx : Nat) : List Nat :=
  [tx / 256 % 256, tx % 256, 129, 128, 0, 0, 0, 0, 0, 0, 0, 0]

/-- Shape check standing in for JSON parsing: the body is brace-delimited
(0x7b and 0x7d are the brace characters). -/
def json_object_shaped (body : List Char) : Bool :=
  body.head? == some (Char.ofNat 123) && body.getLast? == some (Char.ofNat 125)

/-- Modelled from the spec: json_to_dns (src/json_to_dns.c is not under
src/).  The spec fixes that the converter writes a DNS header reusing the
caller's transaction id, and returns a non-positive length on malformed
JSON or when the encoded response would not fit the caller's buffer; on
success it returns the positive number of bytes written.  Only the header
bytes and the success/failure signalling are modelled, which is all the
claims consume; answer-record encoding is elided. -/
def json_to_dns (tx_id : Nat) (body : List Char) (obuf_size : Nat) : Int × List Nat :=
  if json_object_shaped body then
    if (dns_header_bytes tx_id).length ≤ obuf_size then
      (((dns_header_bytes tx_id).length : Int), dns_header_bytes tx_id)
    else ((-1 : Int), [])
  else ((-1 : Int), [])

/-- The observable effects of one https_resp_cb invocation.  `reply`
records a dns_server_respond call as (server handle, address, bytes sent);
`fatal` records that an FLOG abort was reached. -/
structure RespEffects where
  reply : Option (Nat × SockAddrIn × List Nat)
  parsedJson : Bool
  errorLogged : Bool
  freedBufcpy : Bool
  freedReq : Bool
  fatal : Bool
deriving DecidableEq

/-- https_resp_cb (main.c lines 56-84), parameterised by the converter it
calls at line 76 and by whether the calloc at line 65 succeeds.  A null
body returns immediately (lines 58-60) without freeing the request
context.  A null context or a failed allocation hits FLOG, which aborts
the process.  Otherwise the converter runs on the copied body; a
non-positive result is logged with no reply, a positive result r sends the
first r output bytes back to the recorded address, and both paths free the
copy and the context (lines 82-83). -/
def https_resp_cb (conv : Nat → List Char → Nat → Int × List Nat)
    (allocOk : Bool) (data : Option Request) (buf : Option (List Nat)) : RespEffects :=
  match buf with
  | none => { reply := none, parsedJson := false, errorLogged := false,
              freedBufcpy := false, freedReq := false, fatal := false }
  | some bytes =>
    match data with
    | none => { reply := none, parsedJson := false, errorLogged := false,
                freedBufcpy := false, freedReq := false, fatal := true }
    | some req =>
      if allocOk then
        let res := conv req.tx_id (cstring bytes) 1500
        if res.1 ≤ 0 then
          { reply := none, parsedJson := true, errorLogged := true,
            freedBufcpy := true, freedReq := true, fatal := false }
        else
          { reply := some (req.dns_server, req.raddr, res.2.take res.1.toNat),
            parsedJson := true, errorLogged := false,
            freedBufcpy := true, freedReq := true, fatal := false }
      else
        { reply := none, parsedJson := false, errorLogged := false,
          freedBufcpy := false, freedReq := false, fatal := true }

/-- Transaction id encoded in the first two bytes of a wire message,
big-endian. -/
def wire_tx_id (w : List Nat) : Nat :=
  256 * w.getD 0 0 + w.getD 1 0

/-- Configuration fields of struct Options that main.c consumes in the
embedded handlers (options.c is outside the sources; the remaining fields
feed only the excluded glue). -/
structure Options where
  bootstrap_dns : List Char
  http_dns_server : List Char
  edns_client_subnet : List Char
deriving DecidableEq

/-- App state as main builds it (main.c lines 147-158): resolve list
initially null; extra args rendered once from the configured
edns_client_subnet through snprintf with size 199, hence at most 198
characters. -/
def main_app_state (opt : Options) : AppState :=
  { resolv := none
    extra_request_args :=
      if opt.edns_client_subnet ≠ [] then
        ("&edns_client_subnet=".data ++ opt.edns_client_subnet).take 198
      else [] }

/-- Arguments main passes to dns_poller_init (main.c lines 181-183). -/
structure PollerInit where
  bootstrap_dns : List Char
  hostname : List Char
  period_seconds : Nat
deriving DecidableEq

/-- The dns_poller_init call made by main (main.c lines 181-183): the
configured bootstrap servers, the configured DoH hostname, and a literal
120-second period. -/
def main_dns_poller_init (opt : Options) : PollerInit :=
  { bootstrap_dns := opt.bootstrap_dns
    hostname := opt.http_dns_server
    period_seconds := 120 }

/-- Modelled from the spec: dns_poller (src/dns_poller.c is not under
src/).  The poller configures its c-ares channel with exactly the
bootstrap nameserver string handed to dns_poller_init and resolves the DoH
hostname through it, never through the system default resolver. -/
def dns_poller_resolver (p : PollerInit) : List Char :=
  p.bootstrap_dns

/-- Modelled from the spec: https_client_fetch (src/https_client.c is not
under src/).  The dispatcher pins the connection only when the override it
is handed is set; with an empty override it performs its own name
resolution for the host. -/
def usesOwnResolution (f : Fetch) : Bool :=
  f.resolv.isNone

/-- Events interleaving on the single event-loop thread: an incoming
decoded query, or a successful bootstrap poll delivering an address. -/
inductive Event where
  | query (ds : Nat) (a : SockAddrIn) (tx flags : Nat) (name : List Char) (ty : Nat)
  | poll (addr : IPv4)

/-- Whether an event is a successful bootstrap poll. -/
def Event.isPoll : Event → Bool
  | .poll _ => true
  | _ => false

/-- Run of the event loop over the shared resolve-list state: a query
issues a fetch reading the current state (main.c line 108), a poll
replaces the state with the single new entry (main.c lines 118-119). -/
def run (E : List Char) : Option (List Char) → List Event → Option (List Char) × List Fetch
  | s, [] => (s, [])
  | s, Event.query ds a tx fl nm ty :: es =>
    let f := dns_server_cb { resolv := s, extra_request_args := E } ds a tx fl nm ty
    let r := run E s es
    (r.1, f :: r.2)
  | _, Event.poll addr :: es =>
    run E (some (dns_poll_cb addr)) es

/-- The URL shape asserted by the specification, with the DoH host taken
from the configuration; written from the spec's words for comparison with
the URL the code builds. -/
def spec_claimed_url (host name : List Char) (ty : Nat) : List Char :=
  "https://".data ++ host ++ "/resolve?name=".data ++ curl_escape name
    ++ "&type=".data ++ (Nat.repr ty).data

/-- Occurrence of `pat` at the head of `l`. -/
def startsWith : List Char → List Char → Bool
  | [], _ => true
  | _ :: _, [] => false
  | p :: ps, x :: xs => p == x && startsWith ps xs

/-- Occurrence of `pat` anywhere inside `l`. -/
def containsSeg (pat : List Char) (l : List Char) : Bool :=
  startsWith pat l ||
    match l with
    | [] => false
    | _ :: xs => containsSeg pat xs

theorem startsWith_self_append (p b : List Char) : startsWith p (p ++ b) = true := by
  induction p with
  | nil => rfl
  | cons c cs ih => simp [startsWith, ih]

theorem containsSeg_append_right (pat A B : List Char) (h : containsSeg pat B = true) :
    containsSeg pat (A ++ B) = true := by
  induction A with
  | nil => simpa using h
  | cons a A ih => simp [containsSeg, ih]

theorem containsSeg_pat_append (pat A B : List Char) :
    containsSeg pat (A ++ (pat ++ B)) = true := by
  refine containsSeg_append_right pat A _ ?_
  unfold containsSeg
  rw [startsWith_self_append]
  simp

theorem containsSeg_cons_notmem (c : Char) (rest B : List Char) :
    ∀ A : List Char, c ∉ A →
      containsSeg (c :: rest) (A ++ B) = containsSeg (c :: rest) B
  | [], _ => rfl
  | a :: A, hA => by
    have hca : (c == a) = false := by
      refine beq_eq_false_iff_ne.mpr ?_
      intro h
      exact hA (h ▸ List.mem_cons_self a A)
    have ihh := containsSeg_cons_notmem c rest B A (fun hm => hA (List.mem_cons_of_mem a hm))
    simp [containsSeg, startsWith, hca, ihh]

theorem hexUpper_lt16_ne_amp : ∀ m, m < 16 → hexUpper m ≠ '&' := by decide

theorem amp_notmem_escapeChar (c : Char) : '&' ∉ escapeChar c := by
  unfold escapeChar
  by_cases h : curlUnreserved c = true
  · rw [if_pos h]
    intro hm
    have hc : '&' = c := by simpa using hm
    rw [← hc] at h
    exact absurd h (by decide)
  · rw [if_neg h]
    intro hm
    have h1 : c.toNat / 16 % 16 < 16 := Nat.mod_lt _ (by decide)
    have h2 : c.toNat % 16 < 16 := Nat.mod_lt _ (by decide)
    rcases (by simpa using hm : '&' = '%' ∨ '&' = hexUpper (c.toNat / 16 % 16) ∨ '&' = hexUpper (c.toNat % 16)) with h' | h' | h'
    · exact absurd h' (by decide)
    · exact hexUpper_lt16_ne_amp _ h1 h'.symm
    · exact hexUpper_lt16_ne_amp _ h2 h'.symm

theorem amp_notmem_curl_escape : ∀ name : List Char, '&' ∉ curl_escape name
  | [] => by simp [curl_escape]
  | c :: cs => by
    intro hm
    rcases List.mem_append.mp (by simpa [curl_escape] using hm) with h | h
    · exact amp_notmem_escapeChar c h
    · exact amp_notmem_curl_escape cs h

theorem and16_ne_zero_iff (flags : Nat) :
    (flags &&& (1 <<< 4) ≠ 0) ↔ flags.testBit 4 = true := by
  have h16 : (1 <<< 4 : Nat) = 2 ^ 4 := by decide
  rw [h16, Nat.and_two_pow]
  cases htb : flags.testBit 4 <;> simp

/-- C5: for an incoming query whose URL does not overflow the 1498-character
budget and whose type/extra-args tail does not itself spell the cd
parameter, the built URL contains "&cd=true" exactly when bit 4 (the
Checking-Disabled bit) of the query's flags is set. -/
theorem cd_param_iff_cd_bit (app : AppState) (ds : Nat) (a : SockAddrIn)
    (tx flags : Nat) (name : List Char) (ty : Nat)
    (hlen : (urlFull app flags name ty).length ≤ 1498)
    (hext : containsSeg "&cd=true".data
      ("&type=".data ++ ((Nat.repr ty).data ++ app.extra_request_args)) = false) :
    containsSeg "&cd=true".data (dns_server_cb app ds a tx flags name ty).url = true
      ↔ flags.testBit 4 = true := by
  have hurl : (dns_server_cb app ds a tx flags name ty).url = urlFull app flags name ty := by
    show (urlFull app flags name ty).take 1498 = _
    exact List.take_of_length_le hlen
  rw [hurl, ← and16_ne_zero_iff flags]
  unfold urlFull
  by_cases hcd : flags &&& (1 <<< 4) ≠ 0
  · rw [if_pos hcd]
    refine iff_of_true ?_ hcd
    exact containsSeg_append_right _ _ _ (containsSeg_append_right _ _ _
      (containsSeg_append_right _ _ _ (containsSeg_pat_append _ _ _)))
  · rw [if_neg hcd]
    refine iff_of_false ?_ hcd
    intro hcon
    have hpat : "&cd=true".data = '&' :: "cd=true".data := rfl
    rw [List.nil_append, hpat,
      containsSeg_cons_notmem '&' "cd=true".data _ "https://dns.google.com/resolve?name=".data (by decide),
      containsSeg_cons_notmem '&' "cd=true".data _ (curl_escape name) (amp_notmem_curl_escape name)]
      at hcon
    rw [hpat] at hext
    rw [hext] at hcon
    exact absurd hcon (by decide)

theorem cd_param_witness :
    containsSeg "&cd=true".data
      (dns_server_cb { resolv := none, extra_request_args := [] } 0 { addr := 0, port := 0 }
        0 16 "a".data 1).url = true :=
  (cd_param_iff_cd_bit _ 0 _ 0 16 _ 1 (by decide) (by decide)).mpr (by decide)

/-- C10: the URL handed to the dispatcher is the snprintf-truncated text,
at most 1498 characters long, and the fetch is always issued carrying the
freshly captured request context — an oversized name yields a truncated
URL, never an error or a dropped query. -/
theorem url_truncated_and_dispatched (app : AppState) (ds : Nat) (a : SockAddrIn)
    (tx flags : Nat) (name : List Char) (ty : Nat) :
    (dns_server_cb app ds a tx flags name ty).url = (urlFull app flags name ty).take 1498 ∧
    (dns_server_cb app ds a tx flags name ty).url.length ≤ 1498 ∧
    (dns_server_cb app ds a tx flags name ty).req =
      { tx_id := tx, raddr := a, dns_server := ds } := by
  refine ⟨rfl, ?_, rfl⟩
  show ((urlFull app flags name ty).take 1498).length ≤ 1498
  rw [List.length_take]
  exact min_le_left _ _

/-- Configuration with a DoH server hostname that is not dns.google.com,
used to exhibit that the code ignores the configured hostname when it
builds the URL. -/
def opt_example : Options :=
  { bootstrap_dns := [], http_dns_server := "example.com".data, edns_client_subnet := [] }

/-- C2 counterexample: with the DoH server hostname configured as
example.com, the URL the code builds is not the URL the claim describes,
because the code hardcodes dns.google.com as the host. -/
theorem url_host_not_from_config :
    (dns_server_cb (main_app_state opt_example) 0 { addr := 0, port := 0 } 0 0 "a".data 1).url
      ≠ spec_claimed_url opt_example.http_dns_server "a".data 1 := by decide

/-- C2 amended: the outbound URL is the hardcoded-host text
https://dns.google.com/resolve?name=(escaped name)&type=(type), followed by
the cd parameter when bit 4 of the flags is set and by the configured
edns_client_subnet parameter, truncated to 1498 characters; the host never
comes from the configuration. -/
theorem url_shape_hardcoded_host (opt : Options) (ds : Nat) (a : SockAddrIn)
    (tx flags : Nat) (name : List Char) (ty : Nat) :
    (dns_server_cb (main_app_state opt) ds a tx flags name ty).url =
      ("https://dns.google.com/resolve?name=".data ++ (curl_escape name
        ++ ("&type=".data ++ ((Nat.repr ty).data
        ++ ((if flags &&& (1 <<< 4) ≠ 0 then "&cd=true".data else [])
        ++ (if opt.edns_client_subnet ≠ [] then
              ("&edns_client_subnet=".data ++ opt.edns_client_subnet).take 198
            else [])))))).take 1498 := rfl

/-- C1: a completion with a null body sends no reply and never reaches the
JSON conversion, but it also returns before free(req) — the request
context is not freed, contradicting the no-leak part of the claim. -/
theorem null_body_no_reply_no_parse_no_free :
    https_resp_cb json_to_dns true
      (some { tx_id := 4660, raddr := { addr := 1, port := 2 }, dns_server := 7 }) none =
      { reply := none, parsedJson := false, errorLogged := false,
        freedBufcpy := false, freedReq := false, fatal := false } := rfl

/-- C6: when the body is present but the converter returns a non-positive
length, the handler logs the error, sends no reply, and frees both the
body copy and the request context. -/
theorem conversion_failure_no_reply (conv : Nat → List Char → Nat → Int × List Nat)
    (req : Request) (bytes : List Nat)
    (hfail : (conv req.tx_id (cstring bytes) 1500).1 ≤ 0) :
    (https_resp_cb conv true (some req) (some bytes)).reply = none ∧
    (https_resp_cb conv true (some req) (some bytes)).errorLogged = true ∧
    (https_resp_cb conv true (some req) (some bytes)).freedBufcpy = true ∧
    (https_resp_cb conv true (some req) (some bytes)).freedReq = true := by
  simp [https_resp_cb, hfail]

theorem conversion_failure_witness :
    (https_resp_cb (fun _ _ _ => ((-1 : Int), ([] : List Nat))) true
      (some { tx_id := 1, raddr := { addr := 0, port := 0 }, dns_server := 0 })
      (some [123])).reply = none ∧
    (https_resp_cb (fun _ _ _ => ((-1 : Int), ([] : List Nat))) true
      (some { tx_id := 1, raddr := { addr := 0, port := 0 }, dns_server := 0 })
      (some [123])).errorLogged = true ∧
    (https_resp_cb (fun _ _ _ => ((-1 : Int), ([] : List Nat))) true
      (some { tx_id := 1, raddr := { addr := 0, port := 0 }, dns_server := 0 })
      (some [123])).freedBufcpy = true ∧
    (https_resp_cb (fun _ _ _ => ((-1 : Int), ([] : List Nat))) true
      (some { tx_id := 1, raddr := { addr := 0, port := 0 }, dns_server := 0 })
      (some [123])).freedReq = true :=
  conversion_failure_no_reply _ _ _ (by decide)

/-- C7 counterexample: a completion whose body copy allocation fails hits
FLOG and aborts the process at runtime — a fatal error that is not a
startup-time resource acquisition failure. -/
theorem fatal_alloc_failure_at_runtime :
    (https_resp_cb json_to_dns false
      (some { tx_id := 1, raddr := { addr := 0, port := 0 }, dns_server := 0 })
      (some [123, 125])).fatal = true := rfl

/-- C7 amended: with the context present and the body-copy allocation
succeeding, the completion handler never aborts the process, whatever the
converter returns and whether or not a body arrived — per-query failures
are contained; only the FLOG paths (null context, failed allocation) are
fatal. -/
theorem handler_never_fatal_when_alloc_ok (conv : Nat → List Char → Nat → Int × List Nat)
    (req : Request) (buf : Option (List Nat)) :
    (https_resp_cb conv true (some req) buf).fatal = false := by
  cases buf with
  | none => rfl
  | some bytes =>
    by_cases hc : (conv req.tx_id (cstring bytes) 1500).1 ≤ 0 <;>
      simp [https_resp_cb, hc]

/-- C8: main starts the bootstrap poller with a literal 120-second period
and hands it the configured bootstrap nameserver string, which is the
resolver the poller uses — never the system default. -/
theorem poller_period_and_bootstrap (opt : Options) :
    (main_dns_poller_init opt).period_seconds = 120 ∧
    dns_poller_resolver (main_dns_poller_init opt) = opt.bootstrap_dns :=
  ⟨rfl, rfl⟩

theorem json_to_dns_success_eval (tx : Nat) (body : List Char)
    (hj : json_object_shaped body = true) :
    json_to_dns tx body 1500 = ((12 : Int), dns_header_bytes tx) := by
  unfold json_to_dns
  rw [if_pos hj, if_pos (by simp [dns_header_bytes])]
  simp [dns_header_bytes]

/-- C4: if a reply is sent for a query, its first two wire bytes encode
exactly the transaction id captured in the request context at dispatch
time, and it goes back through the captured server handle to the captured
source address. -/
theorem tx_id_preserved (app : AppState) (ds : Nat) (a : SockAddrIn)
    (tx flags : Nat) (name : List Char) (ty : Nat) (body : List Nat)
    (h : Nat) (ra : SockAddrIn) (w : List Nat)
    (htx : tx < 65536)
    (hreply : (https_resp_cb json_to_dns true
      (some (dns_server_cb app ds a tx flags name ty).req) (some body)).reply
        = some (h, ra, w)) :
    wire_tx_id w = tx ∧ h = ds ∧ ra = a := by
  have hr : (dns_server_cb app ds a tx flags name ty).req =
      { tx_id := tx, raddr := a, dns_server := ds } := rfl
  rw [hr] at hreply
  by_cases hj : json_object_shaped (cstring body) = true
  · simp [https_resp_cb, json_to_dns_success_eval tx (cstring body) hj] at hreply
    obtain ⟨h1, h2, h3⟩ := hreply
    subst h1 h2
    refine ⟨?_, rfl, rfl⟩
    rw [← h3]
    simp [wire_tx_id, dns_header_bytes]
    omega
  · simp [https_resp_cb, json_to_dns, hj] at hreply

theorem tx_id_preserved_witness :
    wire_tx_id [18, 52, 129, 128, 0, 0, 0, 0, 0, 0, 0, 0] = 4660 ∧ (7 : Nat) = 7 ∧
      ({ addr := 1, port := 2 } : SockAddrIn) = { addr := 1, port := 2 } :=
  tx_id_preserved { resolv := none, extra_request_args := [] } 7 { addr := 1, port := 2 }
    4660 0 "a".data 1 [123, 125] 7 { addr := 1, port := 2 }
    [18, 52, 129, 128, 0, 0, 0, 0, 0, 0, 0, 0] (by decide) (by decide)

theorem run_append (E : List Char) (s : Option (List Char)) (xs ys : List Event) :
    run E s (xs ++ ys) =
      ((run E (run E s xs).1 ys).1, (run E s xs).2 ++ (run E (run E s xs).1 ys).2) := by
  induction xs generalizing s with
  | nil => simp [run]
  | cons e xs ih =>
    cases e with
    | query ds a tx fl nm ty => simp [run, ih]
    | poll addr => simp [run, ih]

theorem run_no_poll (E : List Char) (s : Option (List Char)) :
    ∀ es : List Event, es.all (fun e => !e.isPoll) = true →
      (run E s es).1 = s ∧ ∀ f ∈ (run E s es).2, f.resolv = s
  | [], _ => by simp [run]
  | Event.query ds a tx fl nm ty :: es, hall => by
    have hrest : es.all (fun e => !e.isPoll) = true := by
      simpa [Event.isPoll] using hall
    obtain ⟨h1, h2⟩ := run_no_poll E s es hrest
    refine ⟨by simpa [run] using h1, ?_⟩
    intro f hf
    rcases (by simpa [run] using hf :
        f = dns_server_cb { resolv := s, extra_request_args := E } ds a tx fl nm ty
          ∨ f ∈ (run E s es).2) with hfe | hfm
    · rw [hfe]; rfl
    · exact h2 f hfm
  | Event.poll addr :: es, hall => by
    exact absurd hall (by simp [Event.isPoll])

/-- C9: as long as no bootstrap poll has succeeded, the shared resolve
list stays null as main initialized it, and every fetch issued in that
window carries no pinned address, so the HTTPS layer does its own name
resolution. -/
theorem no_pin_before_first_poll (opt : Options) (evs : List Event)
    (h : evs.all (fun e => !e.isPoll) = true) :
    (run (main_app_state opt).extra_request_args (main_app_state opt).resolv evs).1 = none ∧
    ((run (main_app_state opt).extra_request_args (main_app_state opt).resolv evs).2.all
      usesOwnResolution) = true := by
  have hres : (main_app_state opt).resolv = none := rfl
  obtain ⟨h1, h2⟩ := run_no_poll (main_app_state opt).extra_request_args
    (main_app_state opt).resolv evs h
  refine ⟨h1.trans hres, ?_⟩
  rw [List.all_eq_true]
  intro f hf
  have hfr := h2 f hf
  simp [usesOwnResolution, hfr, hres]

theorem no_pin_witness :
    (run (main_app_state { bootstrap_dns := [], http_dns_server := [], edns_client_subnet := [] }).extra_request_args
      (main_app_state { bootstrap_dns := [], http_dns_server := [], edns_client_subnet := [] }).resolv
      [Event.query 0 { addr := 0, port := 0 } 1 0 [] 1]).1 = none ∧
    ((run (main_app_state { bootstrap_dns := [], http_dns_server := [], edns_client_subnet := [] }).extra_request_args
      (main_app_state { bootstrap_dns := [], http_dns_server := [], edns_client_subnet := [] }).resolv
      [Event.query 0 { addr := 0, port := 0 } 1 0 [] 1]).2.all usesOwnResolution) = true :=
  no_pin_before_first_poll { bootstrap_dns := [], http_dns_server := [], edns_client_subnet := [] }
    [Event.query 0 { addr := 0, port := 0 } 1 0 [] 1] (by decide)

/-- C3: once a poll event delivers a new address, the shared override is
the single fresh entry; every fetch issued afterwards (while no further
poll intervenes) carries exactly that entry, and the fetches already
issued before the swap are left exactly as they were. -/
theorem override_swap (E : List Char) (pre post : List Event) (addr : IPv4)
    (h : post.all (fun e => !e.isPoll) = true) :
    (run E none (pre ++ Event.poll addr :: post)).1 = some (dns_poll_cb addr) ∧
    (run E none (pre ++ Event.poll addr :: post)).2.take (run E none pre).2.length
      = (run E none pre).2 ∧
    ((run E none (pre ++ Event.poll addr :: post)).2.drop (run E none pre).2.length).all
      (fun f => f.resolv == some (dns_poll_cb addr)) = true := by
  obtain ⟨h1, h2⟩ := run_no_poll E (some (dns_poll_cb addr)) post h
  have hsplit := run_append E none pre (Event.poll addr :: post)
  refine ⟨?_, ?_, ?_⟩
  · rw [hsplit]
    exact h1
  · rw [hsplit]
    exact List.take_left _ _
  · rw [hsplit]
    rw [List.drop_left, List.all_eq_true]
    intro f hf
    have hfr := h2 f hf
    simp [hfr]

theorem override_swap_witness :
    (run [] none ([Event.query 0 { addr := 0, port := 0 } 1 0 [] 1] ++
      Event.poll { a := 1, b := 2, c := 3, d := 4 } :: [Event.query 1 { addr := 0, port := 0 } 2 0 [] 1])).1
      = some (dns_poll_cb { a := 1, b := 2, c := 3, d := 4 }) ∧
    (run [] none ([Event.query 0 { addr := 0, port := 0 } 1 0 [] 1] ++
      Event.poll { a := 1, b := 2, c := 3, d := 4 } :: [Event.query 1 { addr := 0, port := 0 } 2 0 [] 1])).2.take
        (run [] none [Event.query 0 { addr := 0, port := 0 } 1 0 [] 1]).2.length
      = (run [] none [Event.query 0 { addr := 0, port := 0 } 1 0 [] 1]).2 ∧
    ((run [] none ([Event.query 0 { addr := 0, port := 0 } 1 0 [] 1] ++
      Event.poll { a := 1, b := 2, c := 3, d := 4 } :: [Event.query 1 { addr := 0, port := 0 } 2 0 [] 1])).2.drop
        (run [] none [Event.query 0 { addr := 0, port := 0 } 1 0 [] 1]).2.length).all
      (fun f => f.resolv == some (dns_poll_cb { a := 1, b := 2, c := 3, d := 4 })) = true :=
  override_swap [] [Event.query 0 { addr := 0, port := 0 } 1 0 [] 1]
    [Event.query 1 { addr := 0, port := 0 } 2 0 [] 1]
    { a := 1, b := 2, c := 3, d := 4 } (by decide)

end HttpsDnsProxy
